import Mathlib

/-!
Verification of the thin client module of a browser-based image generation
front-end.  The module (services/geminiService) converts local images into the
wire format of a remote generative-image service, issues two kinds of
generation requests, and classifies the heterogeneous response shape into a
successful data-URL artifact or a classified failure.  The UI layer (App)
keeps simple loading/error flags around each request.

The network call itself is abstracted: each request function is embedded as a
function of the service response it received, and each UI handler as a state
transition parameterised by the outcome of the request it issued.
-/

namespace NanoBanana

/-- An `inlineData` payload: the `{mimeType, data}` pair of the wire format. -/
structure InlineData where
  mimeType : String
  data : String
deriving DecidableEq, Repr

/-- A content part of a generateContent response; only its `inlineData`
field is inspected by the client. -/
structure Part where
  inlineData : Option InlineData
deriving DecidableEq, Repr

/-- The `content` field of a candidate. -/
structure Content where
  parts : Option (List Part)
deriving DecidableEq, Repr

/-- A response candidate. -/
structure Candidate where
  content : Option Content
  finishReason : Option String
deriving DecidableEq, Repr

/-- The `promptFeedback` field of a generateContent response. -/
structure PromptFeedback where
  blockReason : Option String
  blockReasonMessage : Option String
deriving DecidableEq, Repr

/-- The shape of a generateContent response, as read by the client:
`promptFeedback`, `candidates`, and the aggregated `text` accessor. -/
structure GenerateContentResponse where
  promptFeedback : Option PromptFeedback
  candidates : Option (List Candidate)
  text : Option String
deriving DecidableEq, Repr

/-- JavaScript truthiness of an optional string: present and non-empty. -/
def truthy : Option String → Bool
  | none => false
  | some s => s != ""

/-- JavaScript `s.trim()`: strip leading and trailing whitespace. -/
def jsTrim (s : String) : String :=
  String.mk (((s.toList.dropWhile Char.isWhitespace).reverse.dropWhile
    Char.isWhitespace).reverse)

/-- `response.promptFeedback?.blockReason`. -/
def blockReasonOf (r : GenerateContentResponse) : Option String :=
  r.promptFeedback.bind (·.blockReason)

/-- `response.candidates?.[0]`. -/
def firstCandidate (r : GenerateContentResponse) : Option Candidate :=
  r.candidates.bind List.head?

/-- `response.candidates?.[0]?.content?.parts?.find(part => part.inlineData)`. -/
def findImagePart (r : GenerateContentResponse) : Option Part :=
  (((firstCandidate r).bind (·.content)).bind (·.parts)).bind
    (List.find? fun p => p.inlineData.isSome)

/-- `imagePartFromResponse?.inlineData`. -/
def imageDataOf (r : GenerateContentResponse) : Option InlineData :=
  (findImagePart r).bind (·.inlineData)

/-- `response.candidates?.[0]?.finishReason`. -/
def finishReasonOf (r : GenerateContentResponse) : Option String :=
  (firstCandidate r).bind (·.finishReason)

/-- The message thrown when the prompt was blocked:
`Request was blocked. Reason: ${blockReason}. ${blockReasonMessage || ''}`. -/
def blockedMsg (blockReason : String) (blockReasonMessage : Option String) : String :=
  "Request was blocked. Reason: " ++ blockReason ++ ". " ++ blockReasonMessage.getD ""

/-- The message thrown on a non-STOP finish reason. -/
def stoppedMsg (finishReason : String) : String :=
  "Image generation stopped unexpectedly. Reason: " ++ finishReason ++
    ". This often relates to safety settings."

/-- The message thrown when the model answered with text instead of an image. -/
def noImageTextMsg (textFeedback : String) : String :=
  "The AI model did not return an image. The model responded with text: \"" ++
    textFeedback ++ "\""

/-- The generic message thrown when no image and no text feedback came back. -/
def noImageGenericMsg : String :=
  "The AI model did not return an image. This can happen due to safety filters or if the request is too complex. Please try rephrasing your prompt to be more direct."

/-- The success value: `` `data:${mimeType};base64,${data}` ``. -/
def dataUrlOf (d : InlineData) : String :=
  "data:" ++ d.mimeType ++ ";base64," ++ d.data

/-- Step 4 of the response handling of `generateImageFromImageAndText`:
quote the trimmed text feedback when non-empty, else the generic message. -/
def noImageFallback (r : GenerateContentResponse) : Except String String :=
  match r.text with
  | some t => if jsTrim t != "" then .error (noImageTextMsg (jsTrim t)) else .error noImageGenericMsg
  | none => .error noImageGenericMsg

/-- Steps 2–4 of the response handling of `generateImageFromImageAndText`
(image extraction, finish-reason check, text-feedback fallback). -/
def classifyCandidates (r : GenerateContentResponse) : Except String String :=
  match imageDataOf r with
  | some d => .ok (dataUrlOf d)
  | none =>
    match finishReasonOf r with
    | some fr =>
      if fr != "" && fr != "STOP" then .error (stoppedMsg fr)
      else noImageFallback r
    | none => noImageFallback r

/-- The response handling of `generateImageFromImageAndText`: the request
itself is abstracted into the response `r` it produced.  A thrown `Error e`
is embedded as `Except.error e`, a returned data URL as `Except.ok`. -/
def generateImageFromImageAndText (r : GenerateContentResponse) : Except String String :=
  match r.promptFeedback with
  | none => classifyCandidates r
  | some pf =>
    match pf.blockReason with
    | none => classifyCandidates r
    | some br =>
      if br != "" then .error (blockedMsg br pf.blockReasonMessage)
      else classifyCandidates r

/-- The `image` field of a generated image: only `imageBytes` is read. -/
structure GeneratedImageData where
  imageBytes : String
deriving DecidableEq, Repr

/-- One entry of `response.generatedImages`. -/
structure GeneratedImage where
  image : GeneratedImageData
deriving DecidableEq, Repr

/-- The shape of a generateImages response, as read by the client. -/
structure GenerateImagesResponse where
  generatedImages : Option (List GeneratedImage)
deriving DecidableEq, Repr

/-- The message thrown by `generateImageFromText` when no images came back. -/
def noImagesMsg : String :=
  "The AI model did not return any images. This may be due to safety filters or a problem with the prompt."

/-- The response handling of `generateImageFromText`: throws when
`generatedImages` is absent or empty, else maps each image to a PNG data URL. -/
def generateImageFromText (r : GenerateImagesResponse) : Except String (List String) :=
  match r.generatedImages with
  | none => .error noImagesMsg
  | some imgs =>
    if imgs.length = 0 then .error noImagesMsg
    else .ok (imgs.map fun img => "data:image/png;base64," ++ img.image.imageBytes)

/-- `dataUrl.split(',')`: split a character list at every comma; the
separators are dropped and empty segments are kept, as in JavaScript. -/
def splitComma : List Char → List (List Char)
  | [] => [[]]
  | c :: cs =>
    if c = ',' then [] :: splitComma cs
    else
      match splitComma cs with
      | [] => [[c]]
      | s :: ss => (c :: s) :: ss

/-- The lazy group `(.*?)` of the regex `/:(.*?);/`, tried at a fixed start
position: the characters up to the first `;`, failing when a newline or the
end of the string intervenes (`.` does not match a newline). -/
def lazyGroup : List Char → Option (List Char)
  | [] => none
  | c :: rest =>
    if c = ';' then some []
    else if c = '\n' then none
    else (lazyGroup rest).map (c :: ·)

/-- `header.match(/:(.*?);/)`, returning the first capture group: the regex
engine tries each `:` from the left and matches the lazy group after it. -/
def matchMime : List Char → Option (List Char)
  | [] => none
  | c :: cs =>
    if c = ':' then
      match lazyGroup cs with
      | some g => some g
      | none => matchMime cs
    else matchMime cs

/-- The body of `dataUrlToPart`: split at commas, require at least two
segments, extract the MIME type from the first segment with `/:(.*?);/`
(rejecting a missing or empty capture), and pair it with the second segment. -/
def dataUrlToPart (dataUrl : String) : Except String InlineData :=
  match splitComma dataUrl.toList with
  | a0 :: a1 :: _ =>
    match matchMime a0 with
    | none => .error "Could not parse MIME type from data URL"
    | some m =>
      if m.isEmpty then .error "Could not parse MIME type from data URL"
      else .ok { mimeType := String.mk m, data := String.mk a1 }
  | _ => .error "Invalid data URL"

/-- The body of `fileToPart` after the FileReader resolved: the argument is
the data URL the reader produced for the file; the parsing of it is the
same, line for line, as in `dataUrlToPart`. -/
def fileToPart (fileDataUrl : String) : Except String InlineData :=
  match splitComma fileDataUrl.toList with
  | a0 :: a1 :: _ =>
    match matchMime a0 with
    | none => .error "Could not parse MIME type from data URL"
    | some m =>
      if m.isEmpty then .error "Could not parse MIME type from data URL"
      else .ok { mimeType := String.mk m, data := String.mk a1 }
  | _ => .error "Invalid data URL"

/-- The UI state of `App` that the generation handlers read or write.  A
`File` value is represented by the data URL its contents encode to, so
`uploadedImage` is `Option String`. -/
structure AppState where
  prompt : String
  generatedImages : List String
  isLoading : Bool
  error : Option String
  promptHistory : List String
  uploadedImage : Option String
  uploadedImageUrl : Option String
  activeImageUrl : Option String
  editPrompt : String
  loadingMessage : String
  isUploadPanelOpen : Bool
deriving DecidableEq, Repr

/-- `err.message || 'An unknown error occurred.'`. -/
def errMessageOr (e : String) : String :=
  if e != "" then e else "An unknown error occurred."

/-- The state just before `handleGenerate` awaits its request (guard already
passed): loading set, error cleared, history conditionally prepended and
capped at 10, loading message chosen by the presence of an uploaded image. -/
def handleGenerateStart (s : AppState) : AppState :=
  { s with
    isLoading := true
    error := none
    promptHistory :=
      if ¬ s.promptHistory.contains s.prompt ∧ jsTrim s.prompt ≠ "" then
        (s.prompt :: s.promptHistory).take 10
      else s.promptHistory
    loadingMessage :=
      if s.uploadedImage.isSome then "AI is editing..." else "AI is creating..." }

/-- The `try/catch/finally` of `handleGenerate`, applied to the state at the
await point and the outcome of the request. -/
def handleGenerateFinish (s : AppState) (result : Except String (List String)) : AppState :=
  match result with
  | .ok newImages =>
    { s with
      generatedImages := s.generatedImages ++ newImages
      uploadedImage := none
      uploadedImageUrl := none
      isUploadPanelOpen := false
      isLoading := false }
  | .error e => { s with error := some (errMessageOr e), isLoading := false }

/-- `handleGenerate` as a state transition: `result` is the outcome of the
single generation request it issues (a list of data URLs on success). -/
def handleGenerate (s : AppState) (result : Except String (List String)) : AppState :=
  if jsTrim s.prompt = "" ∧ s.uploadedImage = none then
    { s with error := some "Please enter a prompt or upload an image." }
  else handleGenerateFinish (handleGenerateStart s) result

/-- The state just before `handleUpscale` awaits its request. -/
def handleUpscaleStart (s : AppState) : AppState :=
  { s with isLoading := true, error := none, loadingMessage := "Upscaling image..." }

/-- The `try/catch/finally` of `handleUpscale`. -/
def handleUpscaleFinish (s : AppState) (result : Except String String) : AppState :=
  match result with
  | .ok newImage => { s with activeImageUrl := some newImage, isLoading := false }
  | .error e => { s with error := some (errMessageOr e), isLoading := false }

/-- `handleUpscale` as a state transition. -/
def handleUpscale (s : AppState) (result : Except String String) : AppState :=
  if s.activeImageUrl = none then
    { s with error := some "No active image to upscale." }
  else handleUpscaleFinish (handleUpscaleStart s) result

/-- The state just before `handleApplyFilter` awaits its request. -/
def handleApplyFilterStart (s : AppState) : AppState :=
  { s with isLoading := true, error := none, loadingMessage := "Applying filter..." }

/-- The `try/catch/finally` of `handleApplyFilter`. -/
def handleApplyFilterFinish (s : AppState) (result : Except String String) : AppState :=
  match result with
  | .ok newImage => { s with activeImageUrl := some newImage, isLoading := false }
  | .error e => { s with error := some (errMessageOr e), isLoading := false }

/-- `handleApplyFilter` as a state transition; `filterPrompt` only shapes the
request, not the state. -/
def handleApplyFilter (filterPrompt : String) (s : AppState)
    (result : Except String String) : AppState :=
  if s.activeImageUrl = none then
    { s with error := some "No active image to apply a filter to." }
  else handleApplyFilterFinish (handleApplyFilterStart s) result

/-- The state just before `handleEditWithPrompt` awaits its request. -/
def handleEditWithPromptStart (s : AppState) : AppState :=
  { s with isLoading := true, error := none, loadingMessage := "Applying your edit..." }

/-- The `try/catch/finally` of `handleEditWithPrompt`; success also clears
the edit prompt. -/
def handleEditWithPromptFinish (s : AppState) (result : Except String String) : AppState :=
  match result with
  | .ok newImage =>
    { s with activeImageUrl := some newImage, editPrompt := "", isLoading := false }
  | .error e => { s with error := some (errMessageOr e), isLoading := false }

/-- `handleEditWithPrompt` as a state transition: two guards, then the
request on `activeImageUrl` and `editPrompt`. -/
def handleEditWithPrompt (s : AppState) (result : Except String String) : AppState :=
  if s.activeImageUrl = none then
    { s with error := some "No active image to edit." }
  else if jsTrim s.editPrompt = "" then
    { s with error := some "Please enter an edit instruction." }
  else handleEditWithPromptFinish (handleEditWithPromptStart s) result

/-- The state just before `handleChangeAspectRatio` awaits its request. -/
def handleChangeAspectRatioStart (s : AppState) : AppState :=
  { s with isLoading := true, error := none, loadingMessage := "Changing aspect ratio..." }

/-- The `try/catch/finally` of `handleChangeAspectRatio`. -/
def handleChangeAspectRatioFinish (s : AppState) (result : Except String String) : AppState :=
  match result with
  | .ok newImage => { s with activeImageUrl := some newImage, isLoading := false }
  | .error e => { s with error := some (errMessageOr e), isLoading := false }

/-- `handleChangeAspectRatio` as a state transition; `newAspectRatio` only
shapes the request, not the state. -/
def handleChangeAspectRatio (newAspectRatio : String) (s : AppState)
    (result : Except String String) : AppState :=
  if s.activeImageUrl = none then
    { s with error := some "No active image to edit." }
  else handleChangeAspectRatioFinish (handleChangeAspectRatioStart s) result

deriving instance DecidableEq for Except

/-! ### Helper lemmas about the data-URL parser -/

theorem splitComma_ne_nil (cs : List Char) : splitComma cs ≠ [] := by
  induction cs with
  | nil => simp [splitComma]
  | cons c cs ih =>
    rw [splitComma]
    split
    · simp
    · cases h : splitComma cs with
      | nil => simp
      | cons s ss => simp

theorem splitComma_no_comma (cs : List Char) (h : ',' ∉ cs) : splitComma cs = [cs] := by
  induction cs with
  | nil => rfl
  | cons c cs ih =>
    simp only [List.mem_cons, not_or] at h
    obtain ⟨h1, h2⟩ := h
    rw [splitComma, if_neg (fun e => h1 e.symm), ih h2]

theorem splitComma_append (h t : List Char) (hh : ',' ∉ h) :
    splitComma (h ++ ',' :: t) = h :: splitComma t := by
  induction h with
  | nil => simp [splitComma]
  | cons c cs ih =>
    simp only [List.mem_cons, not_or] at hh
    obtain ⟨h1, h2⟩ := hh
    rw [List.cons_append, splitComma, if_neg (fun e => h1 e.symm), ih h2]

theorem lazyGroup_append (m rest : List Char) (hm₁ : ';' ∉ m) (hm₂ : '\n' ∉ m) :
    lazyGroup (m ++ ';' :: rest) = some m := by
  induction m with
  | nil => simp [lazyGroup]
  | cons c cs ih =>
    simp only [List.mem_cons, not_or] at hm₁ hm₂
    obtain ⟨hc₁, hcs₁⟩ := hm₁
    obtain ⟨hc₂, hcs₂⟩ := hm₂
    rw [List.cons_append, lazyGroup, if_neg (fun e => hc₁ e.symm),
      if_neg (fun e => hc₂ e.symm), ih hcs₁ hcs₂]
    rfl

theorem matchMime_append (h rest g : List Char) (hh : ':' ∉ h)
    (hg : lazyGroup rest = some g) :
    matchMime (h ++ ':' :: rest) = some g := by
  induction h with
  | nil => simp [matchMime, hg]
  | cons c cs ih =>
    simp only [List.mem_cons, not_or] at hh
    obtain ⟨h1, h2⟩ := hh
    rw [List.cons_append, matchMime, if_neg (fun e => h1 e.symm)]
    exact ih h2

theorem dataUrlToPart_toList (s : String) (h1 m h2 p : List Char)
    (hs : s.toList = (h1 ++ ':' :: (m ++ ';' :: h2)) ++ ',' :: p)
    (hc1 : ',' ∉ h1) (hcol : ':' ∉ h1)
    (hm0 : m ≠ []) (hm1 : ';' ∉ m) (hm2 : ',' ∉ m) (hm3 : '\n' ∉ m)
    (hh2 : ',' ∉ h2) (hp : ',' ∉ p) :
    dataUrlToPart s = .ok { mimeType := String.mk m, data := String.mk p } := by
  have hhead : ',' ∉ h1 ++ ':' :: (m ++ ';' :: h2) := by
    simp only [List.mem_append, List.mem_cons, not_or]
    refine ⟨hc1, by decide, hm2, by decide, hh2⟩
  have hsplit : splitComma ((h1 ++ ':' :: (m ++ ';' :: h2)) ++ ',' :: p) =
      (h1 ++ ':' :: (m ++ ';' :: h2)) :: [p] := by
    rw [splitComma_append _ _ hhead, splitComma_no_comma p hp]
  have hmime : matchMime (h1 ++ ':' :: (m ++ ';' :: h2)) = some m :=
    matchMime_append h1 (m ++ ';' :: h2) m hcol (lazyGroup_append m h2 hm1 hm3)
  unfold dataUrlToPart
  rw [hs, hsplit]
  simp [hmime, hm0]

theorem fileToPart_eq_dataUrlToPart (s : String) : fileToPart s = dataUrlToPart s := rfl

theorem toList_append (a b : String) : (a ++ b).toList = a.toList ++ b.toList := rfl

theorem colon_toList : (":" : String).toList = [':'] := rfl

theorem semi_toList : (";" : String).toList = [';'] := rfl

theorem comma_toList : ("," : String).toList = [','] := rfl

theorem data_colon_toList : ("data:" : String).toList = ['d', 'a', 't', 'a', ':'] := rfl

theorem base64_toList :
    (";base64," : String).toList = [';', 'b', 'a', 's', 'e', '6', '4', ','] := rfl

theorem toList_ne_nil (s : String) (h : s ≠ "") : s.toList ≠ [] := by
  cases s with
  | mk l =>
    intro hl
    apply h
    simp at hl
    simp [hl]

/-! ### Helper lemmas about the response classifier -/

theorem noImageFallback_cases (r : GenerateContentResponse) :
    (∃ t, noImageFallback r = .error (noImageTextMsg t)) ∨
    noImageFallback r = .error noImageGenericMsg := by
  cases ht : r.text with
  | none => exact Or.inr (by simp [noImageFallback, ht])
  | some t =>
    by_cases h : (jsTrim t != "") = true
    · exact Or.inl ⟨jsTrim t, by simp [noImageFallback, ht, h]⟩
    · exact Or.inr (by simp [noImageFallback, ht, h])

theorem noImageFallback_text (r : GenerateContentResponse) (t : String)
    (ht : r.text = some t) (hne : jsTrim t ≠ "") :
    noImageFallback r = .error (noImageTextMsg (jsTrim t)) := by
  simp [noImageFallback, ht, hne]

theorem noImageFallback_generic (r : GenerateContentResponse)
    (ht : ∀ t, r.text = some t → jsTrim t = "") :
    noImageFallback r = .error noImageGenericMsg := by
  cases h : r.text with
  | none => simp [noImageFallback, h]
  | some t => simp [noImageFallback, h, ht t h]

theorem classifyCandidates_image (r : GenerateContentResponse) (d : InlineData)
    (h : imageDataOf r = some d) :
    classifyCandidates r = .ok (dataUrlOf d) := by
  simp [classifyCandidates, h]

theorem classifyCandidates_stopped (r : GenerateContentResponse) (fr : String)
    (h : imageDataOf r = none) (hf : finishReasonOf r = some fr)
    (h1 : fr ≠ "") (h2 : fr ≠ "STOP") :
    classifyCandidates r = .error (stoppedMsg fr) := by
  simp [classifyCandidates, h, hf, h1, h2]

theorem classifyCandidates_fallback (r : GenerateContentResponse)
    (h : imageDataOf r = none)
    (hf : truthy (finishReasonOf r) = false ∨ finishReasonOf r = some "STOP") :
    classifyCandidates r = noImageFallback r := by
  cases hfr : finishReasonOf r with
  | none => simp [classifyCandidates, h, hfr]
  | some fr =>
    rcases hf with hf | hf
    · rw [hfr] at hf
      simp only [truthy, bne_iff_ne, ne_eq, decide_eq_false_iff_not, not_not] at hf
      simp [classifyCandidates, h, hfr, hf]
    · rw [hfr] at hf
      injection hf with hf
      simp [classifyCandidates, h, hfr, hf]

theorem gen_noBlock (r : GenerateContentResponse)
    (h : truthy (blockReasonOf r) = false) :
    generateImageFromImageAndText r = classifyCandidates r := by
  cases hpf : r.promptFeedback with
  | none => simp [generateImageFromImageAndText, hpf]
  | some pf =>
    cases hbr : pf.blockReason with
    | none => simp [generateImageFromImageAndText, hpf, hbr]
    | some br =>
      simp only [truthy, blockReasonOf, hpf, hbr, Option.some_bind, bne_iff_ne, ne_eq,
        decide_eq_false_iff_not, not_not] at h
      simp [generateImageFromImageAndText, hpf, hbr, h]

theorem gen_block (r : GenerateContentResponse) (pf : PromptFeedback) (br : String)
    (hpf : r.promptFeedback = some pf) (hbr : pf.blockReason = some br)
    (hne : br ≠ "") :
    generateImageFromImageAndText r = .error (blockedMsg br pf.blockReasonMessage) := by
  simp [generateImageFromImageAndText, hpf, hbr, hne]

theorem blockReasonOf_some (r : GenerateContentResponse) (pf : PromptFeedback)
    (hpf : r.promptFeedback = some pf) :
    blockReasonOf r = pf.blockReason := by
  simp [blockReasonOf, hpf]

/-! ### Claims about the image-edit response classifier -/

/-- C1: every response is classified as a successful data-URL artifact or as
exactly one of the four failure shapes: prompt block, non-STOP finish
reason, text feedback, or the generic no-image error. -/
theorem generateImageFromImageAndText_total_classification
    (r : GenerateContentResponse) :
    (∃ d, generateImageFromImageAndText r = .ok (dataUrlOf d)) ∨
    (∃ br msg, generateImageFromImageAndText r = .error (blockedMsg br msg)) ∨
    (∃ fr, generateImageFromImageAndText r = .error (stoppedMsg fr)) ∨
    (∃ t, generateImageFromImageAndText r = .error (noImageTextMsg t)) ∨
    generateImageFromImageAndText r = .error noImageGenericMsg := by
  by_cases hb : truthy (blockReasonOf r) = false
  · have hg := gen_noBlock r hb
    cases hi : imageDataOf r with
    | some d =>
      exact Or.inl ⟨d, by rw [hg]; exact classifyCandidates_image r d hi⟩
    | none =>
      by_cases hf : truthy (finishReasonOf r) = false ∨ finishReasonOf r = some "STOP"
      · have hcf := classifyCandidates_fallback r hi hf
        rcases noImageFallback_cases r with ⟨t, ht⟩ | hgen
        · exact Or.inr (Or.inr (Or.inr (Or.inl ⟨t, by rw [hg, hcf, ht]⟩)))
        · exact Or.inr (Or.inr (Or.inr (Or.inr (by rw [hg, hcf, hgen]))))
      · rw [not_or] at hf
        obtain ⟨hf1, hf2⟩ := hf
        simp only [Bool.not_eq_false] at hf1
        cases hfr : finishReasonOf r with
        | none => rw [hfr] at hf1; simp [truthy] at hf1
        | some fr =>
          rw [hfr] at hf1 hf2
          have hne : fr ≠ "" := by simpa [truthy] using hf1
          have hstop : fr ≠ "STOP" := fun e => hf2 (by rw [e])
          exact Or.inr (Or.inr (Or.inl ⟨fr,
            by rw [hg]; exact classifyCandidates_stopped r fr hi hfr hne hstop⟩))
  · simp only [Bool.not_eq_false] at hb
    cases hpf : r.promptFeedback with
    | none =>
      rw [blockReasonOf, hpf] at hb
      simp [truthy] at hb
    | some pf =>
      rw [blockReasonOf_some r pf hpf] at hb
      cases hbr : pf.blockReason with
      | none => rw [hbr] at hb; simp [truthy] at hb
      | some br =>
        rw [hbr] at hb
        have hne : br ≠ "" := by simpa [truthy] using hb
        exact Or.inr (Or.inl ⟨br, pf.blockReasonMessage, gen_block r pf br hpf hbr hne⟩)

/-- C2: whenever `promptFeedback.blockReason` is set (a non-empty reason),
the result is the "Request was blocked" failure naming that reason — even
when the response also carries an image part, since the safety-block check
runs before image extraction. -/
theorem generateImageFromImageAndText_block_priority
    (r : GenerateContentResponse) (pf : PromptFeedback) (br : String)
    (hpf : r.promptFeedback = some pf) (hbr : pf.blockReason = some br)
    (hne : br ≠ "") :
    generateImageFromImageAndText r = .error (blockedMsg br pf.blockReasonMessage) :=
  gen_block r pf br hpf hbr hne

/-- C3: with no block reason, if the first candidate's parts contain a part
with `inlineData`, the result is the success
`"data:" ++ mimeType ++ ";base64," ++ data` built from the first such part. -/
theorem generateImageFromImageAndText_image_success
    (r : GenerateContentResponse) (c : Candidate) (cs : List Candidate)
    (ct : Content) (ps : List Part) (p : Part) (d : InlineData)
    (hb : truthy (blockReasonOf r) = false)
    (hc : r.candidates = some (c :: cs))
    (hct : c.content = some ct)
    (hps : ct.parts = some ps)
    (hp : ps.find? (fun q => q.inlineData.isSome) = some p)
    (hd : p.inlineData = some d) :
    generateImageFromImageAndText r =
      .ok ("data:" ++ d.mimeType ++ ";base64," ++ d.data) := by
  rw [gen_noBlock r hb]
  have himg : imageDataOf r = some d := by
    unfold imageDataOf findImagePart firstCandidate
    rw [hc]
    simp [hct, hps, hp, hd]
  exact classifyCandidates_image r d himg

/-- C4: with no block reason and no inline image, a present (non-empty)
finish reason other than STOP yields the "Image generation stopped
unexpectedly." failure naming that reason. -/
theorem generateImageFromImageAndText_stop_failure
    (r : GenerateContentResponse) (fr : String)
    (hb : truthy (blockReasonOf r) = false)
    (hi : imageDataOf r = none)
    (hf : finishReasonOf r = some fr) (hne : fr ≠ "") (hstop : fr ≠ "STOP") :
    generateImageFromImageAndText r = .error (stoppedMsg fr) := by
  rw [gen_noBlock r hb]
  exact classifyCandidates_stopped r fr hi hf hne hstop

/-- C5: with no block reason, no inline image, and a finish reason that is
absent (or empty) or STOP, the failure message quotes the response's trimmed
text when non-empty and is the generic safety-filter explanation otherwise. -/
theorem generateImageFromImageAndText_text_fallback
    (r : GenerateContentResponse)
    (hb : truthy (blockReasonOf r) = false)
    (hi : imageDataOf r = none)
    (hf : truthy (finishReasonOf r) = false ∨ finishReasonOf r = some "STOP") :
    (∀ t, r.text = some t → jsTrim t ≠ "" →
      generateImageFromImageAndText r = .error (noImageTextMsg (jsTrim t))) ∧
    ((∀ t, r.text = some t → jsTrim t = "") →
      generateImageFromImageAndText r = .error noImageGenericMsg) := by
  have hcf : generateImageFromImageAndText r = noImageFallback r := by
    rw [gen_noBlock r hb]
    exact classifyCandidates_fallback r hi hf
  constructor
  · intro t ht hne
    rw [hcf]
    exact noImageFallback_text r t ht hne
  · intro ht
    rw [hcf]
    exact noImageFallback_generic r ht

/-! ### Concrete responses used to witness the classifier claims -/

/-- A concrete part carrying image data. -/
def exImagePart : Part :=
  { inlineData := some { mimeType := "image/png", data := "QUJD" } }

/-- A blocked response that nonetheless carries an image part. -/
def exBlocked : GenerateContentResponse :=
  { promptFeedback := some { blockReason := some "SAFETY", blockReasonMessage := some "bad" }
    candidates := some [{ content := some { parts := some [exImagePart] }
                          finishReason := some "STOP" }]
    text := none }

/-- An unblocked response whose first candidate carries an image part. -/
def exImage : GenerateContentResponse :=
  { promptFeedback := none
    candidates := some [{ content := some { parts := some [{ inlineData := none }, exImagePart] }
                          finishReason := some "STOP" }]
    text := none }

/-- An unblocked, imageless response with an abnormal finish reason. -/
def exStopped : GenerateContentResponse :=
  { promptFeedback := none
    candidates := some [{ content := none, finishReason := some "SAFETY" }]
    text := none }

/-- An unblocked, imageless response carrying only text feedback. -/
def exText : GenerateContentResponse :=
  { promptFeedback := none
    candidates := none
    text := some " no can do " }

/-- An unblocked, imageless, textless response. -/
def exEmpty : GenerateContentResponse :=
  { promptFeedback := none
    candidates := none
    text := none }

theorem generateImageFromImageAndText_block_priority_witness :
    generateImageFromImageAndText exBlocked = .error (blockedMsg "SAFETY" (some "bad")) ∧
    imageDataOf exBlocked = some { mimeType := "image/png", data := "QUJD" } :=
  ⟨generateImageFromImageAndText_block_priority exBlocked
      { blockReason := some "SAFETY", blockReasonMessage := some "bad" } "SAFETY"
      rfl rfl (by decide), rfl⟩

theorem generateImageFromImageAndText_image_success_witness :
    generateImageFromImageAndText exImage = .ok "data:image/png;base64,QUJD" :=
  generateImageFromImageAndText_image_success exImage
    { content := some { parts := some [{ inlineData := none }, exImagePart] }
      finishReason := some "STOP" } []
    { parts := some [{ inlineData := none }, exImagePart] }
    [{ inlineData := none }, exImagePart] exImagePart
    { mimeType := "image/png", data := "QUJD" }
    rfl rfl rfl rfl rfl rfl

theorem generateImageFromImageAndText_stop_failure_witness :
    generateImageFromImageAndText exStopped = .error (stoppedMsg "SAFETY") :=
  generateImageFromImageAndText_stop_failure exStopped "SAFETY"
    rfl rfl rfl (by decide) (by decide)

theorem generateImageFromImageAndText_text_fallback_witness :
    generateImageFromImageAndText exText = .error (noImageTextMsg (jsTrim " no can do ")) ∧
    generateImageFromImageAndText exEmpty = .error noImageGenericMsg :=
  ⟨(generateImageFromImageAndText_text_fallback exText rfl rfl (Or.inl rfl)).1
      " no can do " rfl (by decide),
   (generateImageFromImageAndText_text_fallback exEmpty rfl rfl (Or.inl rfl)).2
      (fun t ht => by simp [exEmpty] at ht)⟩

/-! ### The text-to-image request function -/

/-- C6: `generateImageFromText` throws exactly when `generatedImages` is
absent or empty, and otherwise returns one `data:image/png;base64,` URL per
image, in order. -/
theorem generateImageFromText_spec (r : GenerateImagesResponse) :
    ((r.generatedImages = none ∨ r.generatedImages = some []) →
      generateImageFromText r = .error noImagesMsg) ∧
    (∀ imgs, r.generatedImages = some imgs → imgs ≠ [] →
      generateImageFromText r =
        .ok (imgs.map fun img => "data:image/png;base64," ++ img.image.imageBytes)) := by
  constructor
  · rintro (h | h) <;> simp [generateImageFromText, h]
  · intro imgs h hne
    simp [generateImageFromText, h, List.length_eq_zero, hne]

theorem generateImageFromText_spec_witness :
    generateImageFromText { generatedImages := none } = .error noImagesMsg ∧
    generateImageFromText { generatedImages := some [{ image := { imageBytes := "QUJD" } }] } =
      .ok ["data:image/png;base64,QUJD"] :=
  ⟨(generateImageFromText_spec { generatedImages := none }).1 (Or.inl rfl),
   (generateImageFromText_spec
      { generatedImages := some [{ image := { imageBytes := "QUJD" } }] }).2
      [{ image := { imageBytes := "QUJD" } }] rfl (by decide)⟩

/-! ### The payload encoder -/

/-- C7 counterexample: on a data URL whose payload itself contains a comma,
the encoder does not return the whole payload following the first comma; it
returns only the segment before the next comma. -/
theorem dataUrlToPart_comma_payload_cex :
    dataUrlToPart "data:image/png;base64,AA,BB" ≠
      .ok { mimeType := "image/png", data := "AA,BB" } ∧
    dataUrlToPart "data:image/png;base64,AA,BB" =
      .ok { mimeType := "image/png", data := "AA" } ∧
    fileToPart "data:image/png;base64,AA,BB" =
      .ok { mimeType := "image/png", data := "AA" } :=
  ⟨by decide, rfl, rfl⟩

/-- C7 (amended): for every data URL of the form
`h1 ++ ":" ++ mime ++ ";" ++ h2 ++ "," ++ payload` — header containing a
`:mime;` segment at its first colon (`h1` colon- and comma-free, `mime`
non-empty and free of `;`, `,` and newline, `h2` comma-free) — with a
comma-free payload, both `dataUrlToPart` and `fileToPart` return the
`{mimeType, data}` pair holding that MIME type and that payload. -/
theorem dataUrlToPart_wire_format (h1 mime h2 payload : String)
    (hc1 : ',' ∉ h1.toList) (hcol : ':' ∉ h1.toList)
    (hm0 : mime ≠ "") (hm1 : ';' ∉ mime.toList) (hm2 : ',' ∉ mime.toList)
    (hm3 : '\n' ∉ mime.toList)
    (hh2 : ',' ∉ h2.toList) (hp : ',' ∉ payload.toList) :
    dataUrlToPart (h1 ++ ":" ++ mime ++ ";" ++ h2 ++ "," ++ payload) =
      .ok { mimeType := mime, data := payload } ∧
    fileToPart (h1 ++ ":" ++ mime ++ ";" ++ h2 ++ "," ++ payload) =
      .ok { mimeType := mime, data := payload } := by
  have hs : (h1 ++ ":" ++ mime ++ ";" ++ h2 ++ "," ++ payload).toList =
      (h1.toList ++ ':' :: (mime.toList ++ ';' :: h2.toList)) ++ ',' :: payload.toList := by
    simp [toList_append, colon_toList, semi_toList, comma_toList, List.append_assoc]
  have key := dataUrlToPart_toList _ h1.toList mime.toList h2.toList payload.toList hs
    hc1 hcol (toList_ne_nil mime hm0) hm1 hm2 hm3 hh2 hp
  exact ⟨key, by rw [fileToPart_eq_dataUrlToPart]; exact key⟩

theorem dataUrlToPart_wire_format_witness :
    dataUrlToPart ("image" ++ ":" ++ "image/png" ++ ";" ++ "base64" ++ "," ++ "QUJD") =
      .ok { mimeType := "image/png", data := "QUJD" } ∧
    fileToPart ("image" ++ ":" ++ "image/png" ++ ";" ++ "base64" ++ "," ++ "QUJD") =
      .ok { mimeType := "image/png", data := "QUJD" } :=
  dataUrlToPart_wire_format "image" "image/png" "base64" "QUJD"
    (by decide) (by decide) (by decide) (by decide) (by decide) (by decide)
    (by decide) (by decide)

/-- C9 counterexample: the round trip fails for the empty MIME type string
(which contains no `;` and no `,`): the encoder rejects the empty capture
group instead of returning `{mimeType := "", data := payload}`. -/
theorem dataUrl_roundTrip_cex :
    dataUrlToPart ("data:" ++ "" ++ ";base64," ++ "QUJD") ≠
      .ok { mimeType := "", data := "QUJD" } ∧
    dataUrlToPart ("data:" ++ "" ++ ";base64," ++ "QUJD") =
      .error "Could not parse MIME type from data URL" :=
  ⟨by decide, by decide⟩

/-- C9 (amended): for every non-empty MIME type containing no `;`, `,` or
newline and every comma-free payload, `dataUrlToPart` applied to the exact
success output of `generateImageFromImageAndText` — the string
`"data:" ++ mimeType ++ ";base64," ++ data`, i.e. `dataUrlOf` — returns the
`{mimeType, data}` pair unchanged, so an edited image can be re-submitted. -/
theorem dataUrl_roundTrip (d : InlineData)
    (hm0 : d.mimeType ≠ "") (hm1 : ';' ∉ d.mimeType.toList)
    (hm2 : ',' ∉ d.mimeType.toList) (hm3 : '\n' ∉ d.mimeType.toList)
    (hp : ',' ∉ d.data.toList) :
    dataUrlToPart (dataUrlOf d) = .ok d := by
  obtain ⟨mime, payload⟩ := d
  have hs : (dataUrlOf { mimeType := mime, data := payload }).toList =
      (['d', 'a', 't', 'a'] ++ ':' ::
        (mime.toList ++ ';' :: ['b', 'a', 's', 'e', '6', '4'])) ++ ',' :: payload.toList := by
    simp [dataUrlOf, toList_append, data_colon_toList, base64_toList, List.append_assoc]
  exact dataUrlToPart_toList _ ['d', 'a', 't', 'a'] mime.toList
    ['b', 'a', 's', 'e', '6', '4'] payload.toList hs (by decide) (by decide)
    (toList_ne_nil mime hm0) hm1 hm2 hm3 (by decide) hp

theorem dataUrl_roundTrip_witness :
    dataUrlToPart (dataUrlOf { mimeType := "image/png", data := "QUJD" }) =
      .ok { mimeType := "image/png", data := "QUJD" } :=
  dataUrl_roundTrip { mimeType := "image/png", data := "QUJD" }
    (by decide) (by decide) (by decide) (by decide) (by decide)

/-! ### Loading/error discipline of the UI handlers -/

/-- The discipline shared by the image-edit handlers: the pre-request state
has the loading flag set and the error cleared; the final state has the flag
cleared on every outcome; a failed outcome stores the failure message and
leaves both image states unchanged. -/
def loadingDiscipline (startFn : AppState → AppState)
    (handler : AppState → Except String String → AppState) (s : AppState) : Prop :=
  (startFn s).isLoading = true ∧
  (startFn s).error = none ∧
  (∀ res, (handler s res).isLoading = false) ∧
  (∀ msg, (handler s (.error msg)).error = some (errMessageOr msg) ∧
    (handler s (.error msg)).generatedImages = s.generatedImages ∧
    (handler s (.error msg)).activeImageUrl = s.activeImageUrl)

/-- C8: each generation handler, when its guard passes, sets the loading
flag and clears the error before issuing the request, clears the flag when
the operation finishes on both success and failure, and on failure stores
the failure message in the error flag while leaving the generated-image
state unchanged. -/
theorem handlers_loading_discipline (s : AppState) :
    (¬(jsTrim s.prompt = "" ∧ s.uploadedImage = none) →
      (handleGenerateStart s).isLoading = true ∧
      (handleGenerateStart s).error = none ∧
      (∀ res, (handleGenerate s res).isLoading = false) ∧
      (∀ msg, (handleGenerate s (.error msg)).error = some (errMessageOr msg) ∧
        (handleGenerate s (.error msg)).generatedImages = s.generatedImages ∧
        (handleGenerate s (.error msg)).activeImageUrl = s.activeImageUrl)) ∧
    (s.activeImageUrl ≠ none → loadingDiscipline handleUpscaleStart handleUpscale s) ∧
    (s.activeImageUrl ≠ none →
      ∀ fp, loadingDiscipline handleApplyFilterStart (handleApplyFilter fp) s) ∧
    (s.activeImageUrl ≠ none → jsTrim s.editPrompt ≠ "" →
      loadingDiscipline handleEditWithPromptStart handleEditWithPrompt s) ∧
    (s.activeImageUrl ≠ none →
      ∀ ar, loadingDiscipline handleChangeAspectRatioStart (handleChangeAspectRatio ar) s) := by
  refine ⟨?_, ?_, ?_, ?_, ?_⟩
  · intro hguard
    refine ⟨rfl, rfl, ?_, ?_⟩
    · intro res
      rw [handleGenerate, if_neg hguard]
      cases res <;> rfl
    · intro msg
      rw [handleGenerate, if_neg hguard]
      exact ⟨rfl, rfl, rfl⟩
  · intro hguard
    refine ⟨rfl, rfl, ?_, ?_⟩
    · intro res
      rw [handleUpscale, if_neg hguard]
      cases res <;> rfl
    · intro msg
      rw [handleUpscale, if_neg hguard]
      exact ⟨rfl, rfl, rfl⟩
  · intro hguard fp
    refine ⟨rfl, rfl, ?_, ?_⟩
    · intro res
      rw [handleApplyFilter, if_neg hguard]
      cases res <;> rfl
    · intro msg
      rw [handleApplyFilter, if_neg hguard]
      exact ⟨rfl, rfl, rfl⟩
  · intro hguard hedit
    refine ⟨rfl, rfl, ?_, ?_⟩
    · intro res
      rw [handleEditWithPrompt, if_neg hguard, if_neg hedit]
      cases res <;> rfl
    · intro msg
      rw [handleEditWithPrompt, if_neg hguard, if_neg hedit]
      exact ⟨rfl, rfl, rfl⟩
  · intro hguard ar
    refine ⟨rfl, rfl, ?_, ?_⟩
    · intro res
      rw [handleChangeAspectRatio, if_neg hguard]
      cases res <;> rfl
    · intro msg
      rw [handleChangeAspectRatio, if_neg hguard]
      exact ⟨rfl, rfl, rfl⟩

/-- A concrete UI state with an active image, a non-blank prompt and a
non-blank edit prompt. -/
def exState : AppState :=
  { prompt := "a cat"
    generatedImages := ["old"]
    isLoading := false
    error := none
    promptHistory := []
    uploadedImage := none
    uploadedImageUrl := none
    activeImageUrl := some "data:image/png;base64,QUJD"
    editPrompt := "add hat"
    loadingMessage := ""
    isUploadPanelOpen := false }

theorem handlers_loading_discipline_witness :
    loadingDiscipline handleUpscaleStart handleUpscale exState ∧
    loadingDiscipline handleApplyFilterStart (handleApplyFilter "make it vintage") exState ∧
    loadingDiscipline handleEditWithPromptStart handleEditWithPrompt exState ∧
    loadingDiscipline handleChangeAspectRatioStart (handleChangeAspectRatio "16:9") exState ∧
    (handleGenerate exState (.error "boom")).isLoading = false ∧
    (handleGenerate exState (.error "boom")).error = some "boom" := by
  have h := handlers_loading_discipline exState
  have h1 := h.1 (by decide)
  refine ⟨h.2.1 (by decide), h.2.2.1 (by decide) _, h.2.2.2.1 (by decide) (by decide),
    h.2.2.2.2 (by decide) _, h1.2.2.1 _, ?_⟩
  exact ((h1.2.2.2 "boom").1).trans (by decide)

/-! ### The prompt-history invariant -/

/-- C10: `handleGenerate` keeps the prompt history at no more than 10
entries and free of duplicates; it prepends the current prompt exactly when
the prompt is non-blank after trimming and not already present, and leaves
the history unchanged otherwise. -/
theorem promptHistory_invariant (s : AppState) (res : Except String (List String))
    (hlen : s.promptHistory.length ≤ 10) (hnd : s.promptHistory.Nodup) :
    (handleGenerate s res).promptHistory.length ≤ 10 ∧
    (handleGenerate s res).promptHistory.Nodup ∧
    (¬ s.promptHistory.contains s.prompt → jsTrim s.prompt ≠ "" →
      (handleGenerate s res).promptHistory = (s.prompt :: s.promptHistory).take 10) ∧
    (s.promptHistory.contains s.prompt ∨ jsTrim s.prompt = "" →
      (handleGenerate s res).promptHistory = s.promptHistory) := by
  have hh : (handleGenerate s res).promptHistory =
      if ¬ s.promptHistory.contains s.prompt ∧ jsTrim s.prompt ≠ "" then
        (s.prompt :: s.promptHistory).take 10
      else s.promptHistory := by
    by_cases hg : jsTrim s.prompt = "" ∧ s.uploadedImage = none
    · rw [handleGenerate, if_pos hg,
        if_neg (fun hc => hc.2 hg.1)]
    · rw [handleGenerate, if_neg hg]
      cases res <;> rfl
  rw [hh]
  refine ⟨?_, ?_, ?_, ?_⟩
  · split
    · exact le_trans (List.length_take_le 10 _) (le_refl 10)
    · exact hlen
  · split
    · next hc =>
      have hmem : s.prompt ∉ s.promptHistory := by
        intro hm
        exact hc.1 (List.elem_eq_true_of_mem hm)
      exact (List.take_sublist 10 _).nodup (List.nodup_cons.mpr ⟨hmem, hnd⟩)
    · exact hnd
  · intro hnc hne
    rw [if_pos ⟨hnc, hne⟩]
  · intro hor
    rcases hor with hc | hb
    · rw [if_neg (fun hx => hx.1 hc)]
    · rw [if_neg (fun hx => hx.2 hb)]

/-- A concrete UI state for exercising the history update. -/
def exGenState : AppState :=
  { prompt := "b"
    generatedImages := []
    isLoading := false
    error := none
    promptHistory := ["a"]
    uploadedImage := none
    uploadedImageUrl := none
    activeImageUrl := none
    editPrompt := ""
    loadingMessage := ""
    isUploadPanelOpen := false }

theorem promptHistory_invariant_witness :
    (handleGenerate exGenState (.ok ["img"])).promptHistory = ["b", "a"] :=
  ((promptHistory_invariant exGenState (.ok ["img"]) (by decide) (by decide)).2.2.1
    (by decide) (by decide)).trans (by decide)

end NanoBanana
